import Mathlib

/- Verification development for the FEM beam notebooks: a rational-number
   model of the Dirichlet-elimination solve, the elasticity (`Beam`) class
   pipeline, the stress/strain coefficient expressions, and the
   shape-optimization driver loop.  Machine reals are modelled by `ℚ`
   (the properties checked are structural/exact, not rounding facts);
   external library calls (sparse inverse, norms, H1 spaces) are modelled
   as explicit function parameters where their input/output behaviour is
   all the code depends on. -/

/-- Matrix-vector product over ℚ, modelling `a.mat * gfu.vec`. -/
def mulVecQ (n : ℕ) (A : Fin n → Fin n → ℚ) (x : Fin n → ℚ) : Fin n → ℚ :=
  fun i => ∑ j, A i j * x j

/-- Model of `gfu.Set(g, ...)` on a freshly created `GridFunction`: the
vector holds the prescribed Dirichlet value at every constrained DOF (the
complement of the free-DOF set `F`) and zero at free DOFs.  This is the
`u_g` of the elimination scheme (in `main` of the 2-D Poisson notebook and
in `Beam.solve_system` the prescribed data is the zero function). -/
def dirichletLift (n : ℕ) (F : Finset (Fin n)) (g : Fin n → ℚ) : Fin n → ℚ :=
  fun i => if i ∈ F then 0 else g i

/-- Residual `r.data = f.vec - a.mat * gfu.vec` computed by `main` and by
`Beam.solve_system` before the restricted solve. -/
def residualVec (n : ℕ) (A : Fin n → Fin n → ℚ) (bv ug : Fin n → ℚ) : Fin n → ℚ :=
  fun i => bv i - mulVecQ n A ug i

/-- Model of the tail of `main` / `Beam.solve_system`:
`gfu.vec.data += a.mat.Inverse(freedofs=F) * r` applied after the residual
computation.  `inv` is the operator returned by the external
`a.mat.Inverse(freedofs=F)` call; the NGSolve contract (restated in the
spec) is that its output vanishes outside the free set `F`, which is taken
as a hypothesis of the round-trip theorem. -/
def solveWithBC (n : ℕ) (A : Fin n → Fin n → ℚ) (bv : Fin n → ℚ) (F : Finset (Fin n))
    (g : Fin n → ℚ) (inv : (Fin n → ℚ) → Fin n → ℚ) : Fin n → ℚ :=
  fun i => dirichletLift n F g i + inv (residualVec n A bv (dirichletLift n F g)) i

/-- Square ℚ matrices of size `d`, modelling the pointwise value of a
matrix-valued CoefficientFunction (for example `grad(u)` or `epsilon(u)`
for a `VectorH1` field on a mesh of dimension `d`). -/
def MatQ (d : ℕ) := Fin d → Fin d → ℚ

/-- Transpose, modelling `.trans` on a matrix CoefficientFunction. -/
def transposeQ (d : ℕ) (M : MatQ d) : MatQ d := fun i j => M j i

/-- Model of `epsilon = lambda u: 0.5*(grad(u) + grad(u).trans)` from
`Beam.define_forms` (and the identical global `epsilon` of the
shape-optimization cells), applied to the pointwise gradient `G` of `u`. -/
def epsilonOf (d : ℕ) (G : MatQ d) : MatQ d :=
  fun i j => (1 / 2) * (G i j + transposeQ d G i j)

/-- The identity matrix `Id(dim)`. -/
def idMat (d : ℕ) : MatQ d := fun i j => if i = j then 1 else 0

/-- Matrix trace, the `tr(ε)` of the documented Hooke law. -/
def traceQ (d : ℕ) (M : MatQ d) : ℚ := ∑ i, M i i

/-- NGSolve single-integer component indexing `cf[k]` of a matrix
CoefficientFunction: the k-th scalar component of the row-major flattened
matrix (out-of-range indices are irrelevant here and mapped to 0). -/
def flatComp (d : ℕ) (M : MatQ d) (k : ℕ) : ℚ :=
  if h : k < d * d then
    M ⟨k / d, by
        rcases Nat.eq_zero_or_pos d with h0 | h0
        · subst h0; omega
        · exact (Nat.div_lt_iff_lt_mul h0).mpr h⟩
      ⟨k % d, by
        rcases Nat.eq_zero_or_pos d with h0 | h0
        · subst h0; omega
        · exact Nat.mod_lt _ h0⟩
  else 0

/-- Model of `sigma = lambda u: self.lam*Id(self.mesh.dim) *
(epsilon(u)[0]+epsilon(u)[1]+epsilon(u)[2]) + 2*self.mu*epsilon(u)` from
`Beam.define_forms` (the global `sigma` of the shape-optimization cells is
identical): the λ-term multiplies the sum of the first three flat
components of ε, exactly as indexed in the source. -/
def sigmaCode (d : ℕ) (lam mu : ℚ) (G : MatQ d) : MatQ d :=
  fun i j =>
    lam * idMat d i j *
        (flatComp d (epsilonOf d G) 0 + flatComp d (epsilonOf d G) 1 +
          flatComp d (epsilonOf d G) 2) +
      2 * mu * epsilonOf d G i j

/-- The stress tensor the notebook markdown and the spec document:
`σ(u) = λ·tr(ε(u))·I + 2μ·ε(u)`. -/
def sigmaDoc (d : ℕ) (lam mu : ℚ) (G : MatQ d) : MatQ d :=
  fun i j => lam * traceQ d (epsilonOf d G) * idMat d i j + 2 * mu * epsilonOf d G i j

/-- Frobenius double contraction `InnerProduct(A, B)` of two matrix values:
the pointwise integrand of the bilinear form `InnerProduct(sigma(u), epsilon(v))*dx`. -/
def innerProdQ (d : ℕ) (A B : MatQ d) : ℚ := ∑ i, ∑ j, A i j * B i j

/-- Concrete displacement gradient `∇u` with a single shear entry. -/
def gShear : MatQ 2 := fun i j => if i.val = 0 ∧ j.val = 1 then 1 else 0

/-- Concrete test-function gradient `∇v` with a single axial entry. -/
def gAxial : MatQ 2 := fun i j => if i.val = 0 ∧ j.val = 0 then 1 else 0

/-- Python runtime errors relevant to the notebook code paths. -/
inductive PyError
  | nameError : String → PyError
  | zeroDivision : PyError
deriving DecidableEq

/-- The cost evaluators that are actually defined as globals by the
shape-optimization cells of the notebook (`EquationFA`, `CostAutoFA`,
`CostAuto2`); no `CostAuto` is ever defined. -/
def definedCostNames : List String := ["EquationFA", "CostAutoFA", "CostAuto2"]

/-- Python global-name resolution: evaluating a name that is not bound in
the module globals raises `NameError`. -/
def evalGlobalName (env : List String) (nm : String) : Except PyError Unit :=
  if nm ∈ env then Except.ok () else Except.error (PyError.nameError nm)

/-- The cost-evaluator name the line-search retry evaluates:
`Jnew = Integrate(CostAuto(gfu), mesh)`. -/
def lineSearchCostName : String := "CostAuto"

/-- The cost-evaluator name the outer loop evaluates:
`Jnew = Integrate(CostAuto2(gfu), mesh)`. -/
def outerCostName : String := "CostAuto2"

/-- Semantics of `gfset.components[c].Set(0, definedon = R)` for an
already-resolved DOF region `R`: zero the coordinate component `c` of the
deformation at the DOFs of `R`, leaving every other component and every
other point untouched.  The deformation space of the shape-optimization
section is a 2-D `VectorH1`, so points carry `Fin 2` components.  Which
DOF region the source's string `definedon` actually resolves to is
modelled separately by `resolveVolRegion`. -/
def setComponentZero (m : ℕ) (c : Fin 2) (region : Fin m → Bool)
    (v : Fin m → Fin 2 → ℚ) : Fin m → Fin 2 → ℚ :=
  fun p j => if j = c ∧ region p = true then 0 else v p j

/-- The two re-zero lines after the `gfset` update,
`gfset.components[0].Set(0, definedon = 'left')` then
`gfset.components[0].Set(0, definedon = 'right')`, parameterized over the
DOF regions the two `definedon` strings resolve to.  Under the actual
resolution (`resolveVolRegion`, against volume materials) both regions are
empty on this mesh; `rezeroAnchorsActual` instantiates accordingly. -/
def rezeroAnchors (m : ℕ) (onLeft onRight : Fin m → Bool)
    (v : Fin m → Fin 2 → ℚ) : Fin m → Fin 2 → ℚ :=
  setComponentZero m 0 onRight (setComponentZero m 0 onLeft v)

/-- Model of `gfset.vec.data -= scale * gfX.vec`.  In the source
`scale = 0.01 / Norm(gfX.vec)`; its numeric value is irrelevant to the
re-zeroing and aliasing properties, so it is a parameter here. -/
def deformUpdate (m : ℕ) (v gfX : Fin m → Fin 2 → ℚ) (scale : ℚ) :
    Fin m → Fin 2 → ℚ :=
  fun p j => v p j - scale * gfX p j

/-- One iteration's deformation update followed by the two `Set` calls,
exactly in source order, parameterized over the resolved DOF regions. -/
def stepAndRezero (m : ℕ) (onLeft onRight : Fin m → Bool)
    (v gfX : Fin m → Fin 2 → ℚ) (scale : ℚ) : Fin m → Fin 2 → ℚ :=
  rezeroAnchors m onLeft onRight (deformUpdate m v gfX scale)

/-- The boundary-region name 'left' (also the 2-D `fixedbnd` of `Beam.__init__`). -/
def leftName : String := "left"

/-- The boundary-region name 'right'. -/
def rightName : String := "right"

/-- Resolution of a string `definedon` argument of `GridFunction.Set`: the
`VOL_or_BND` argument defaults to `VOL`, so the pattern is matched against
the mesh's volume *materials* (not its boundaries); the touched DOFs are
those of the matched materials.  `materials` lists the mesh's material
names and `dofsOfMat` gives each material's DOF set. -/
def resolveVolRegion (m : ℕ) (materials : List String)
    (dofsOfMat : String → Fin m → Bool) (pat : String) : Fin m → Bool :=
  fun p => decide (pat ∈ materials) && dofsOfMat pat p

/-- The two re-zero lines as actually executed:
`gfset.components[0].Set(0, definedon = 'left')` and
`gfset.components[0].Set(0, definedon = 'right')` resolve their string
`definedon` with the default `VOL_or_BND = VOL` against the volume
materials of the mesh. -/
def rezeroAnchorsActual (m : ℕ) (materials : List String)
    (dofsOfMat : String → Fin m → Bool) (v : Fin m → Fin 2 → ℚ) :
    Fin m → Fin 2 → ℚ :=
  rezeroAnchors m (resolveVolRegion m materials dofsOfMat leftName)
    (resolveVolRegion m materials dofsOfMat rightName) v

/-- One iteration's deformation update followed by the two `Set` calls
under the actual `definedon` resolution. -/
def stepAndRezeroActual (m : ℕ) (materials : List String)
    (dofsOfMat : String → Fin m → Bool) (v gfX : Fin m → Fin 2 → ℚ)
    (scale : ℚ) : Fin m → Fin 2 → ℚ :=
  rezeroAnchorsActual m materials dofsOfMat (deformUpdate m v gfX scale)

/-- The volume materials of the shape-optimization `SplineGeometry` mesh:
only the unnamed default material.  'bottom', 'right', 'top' and 'left'
are *boundary* names of that mesh, not materials. -/
def splineMeshMaterials : List String := ["default"]

/-- Material DOF sets of the one-point model: the single DOF belongs to
every material's region (the generous choice — the no-op happens solely
because no material is named 'left' or 'right'). -/
def matAll : String → Fin 1 → Bool := fun _ _ => true

/-- Boundary membership for the one-point model: the DOF lies on the
'left' boundary of the mesh, i.e. it is an anchor point. -/
def oneL : Fin 1 → Bool := fun _ => true

/-- Region predicate matching no point (an interior, non-anchored DOF). -/
def oneN : Fin 1 → Bool := fun _ => false

/-- The zero deformation, the value `gfset.Set((0,0))` gives `gfset`. -/
def vZero : Fin 1 → Fin 2 → ℚ := fun _ _ => 0

/-- A concrete descent direction `gfX` with all components -3. -/
def gXneg3 : Fin 1 → Fin 2 → ℚ := fun _ _ => -3

/-- One line-search retry as the source executes it.  The source line
`gfsetOld = gfset` binds `gfsetOld` to the very same Python object as
`gfset` (reference assignment, no copy), so the retry line
`gfset.vec.data = gfsetOld.vec - scale * gfX.vec` reads the vector that was
already updated (and passed through the two no-op `Set` calls) earlier in
this iteration, and subtracts the halved step from it.  The resolved
regions of those calls are empty, matching the `oneN` instantiation. -/
def retryAliased (m : ℕ) (onLeft onRight : Fin m → Bool)
    (g0 gfX : Fin m → Fin 2 → ℚ) (scale : ℚ) : Fin m → Fin 2 → ℚ :=
  fun p j => stepAndRezero m onLeft onRight g0 gfX scale p j - scale / 2 * gfX p j

/-- The retry semantics the claim describes: recompute the candidate from
the value `gfset` held at the start of the iteration minus the halved step. -/
def retrySnapshot (m : ℕ) (g0 gfX : Fin m → Fin 2 → ℚ) (scale : ℚ) :
    Fin m → Fin 2 → ℚ :=
  fun p j => g0 p j - scale / 2 * gfX p j

/-- The line-search minimum step threshold `1e-7` of the source. -/
def minStepThreshold : ℚ := 1 / 10 ^ 7

/-- The while-loop guard threshold `1e-12` of the source. -/
def loopGuardThreshold : ℚ := 1 / 10 ^ 12

/-- The inner line-search loop of the optimization driver, run with explicit
fuel (`none` = fuel exhausted, used only to state its termination):
`while Jnew > Jold and scale > 1e-12:` halve `scale`; if `scale <= 1e-7`
set `converged = True` and break; otherwise recompute the candidate
deformation, re-solve the state equation and re-evaluate the cost — the
whole recomputation chain is abstracted as the total oracle `J` mapping the
trial scale to the evaluated cost.  Returns `(scale, Jnew, converged)`. -/
def lineSearchFuel (J : ℚ → ℚ) (Jold : ℚ) : ℕ → ℚ → ℚ → Option (ℚ × ℚ × Bool)
  | 0, _, _ => none
  | fuel + 1, scale, Jnew =>
    if Jnew > Jold ∧ scale > loopGuardThreshold then
      if scale / 2 ≤ minStepThreshold then some (scale / 2, Jnew, true)
      else lineSearchFuel J Jold fuel (scale / 2) (J (scale / 2))
    else some (scale, Jnew, false)

/-- Fuel sufficient for the line search to run to completion from a given
initial scale: one pass per halving needed to fall below `1e-7`. -/
def lsFuelOf (scale : ℚ) : ℕ := (Int.ceil (scale * 10 ^ 7)).toNat + 1

/-- The outer optimization loop `for k in range(iter_max)` with the
convergence break.  `scaleAt k` abstracts `0.01 / Norm(gfX.vec)` at
iteration `k`, `costAt k s` abstracts the cost evaluated after stepping
with scale `s` at iteration `k`.  Returns the number of iterations
entered; recursion is structural on the remaining iteration budget,
mirroring the bounded `range(iter_max)`. -/
def driverLoop (scaleAt : ℕ → ℚ) (costAt : ℕ → ℚ → ℚ) (useLS : Bool) :
    ℕ → ℕ → ℚ → ℕ
  | 0, _, _ => 0
  | r + 1, k, Jold =>
    let scale := scaleAt k
    let Jnew := costAt k scale
    let res :=
      if useLS then
        (lineSearchFuel (costAt k) Jold (lsFuelOf scale) scale Jnew).getD
          (scale, Jnew, true)
      else (scale, Jnew, false)
    if res.2.2 then 1 else 1 + driverLoop scaleAt costAt useLS r (k + 1) res.2.1

/-- Scale oracle for the termination witness: every iteration proposes the
threshold step. -/
def wScaleAt : ℕ → ℚ := fun _ => minStepThreshold

/-- Cost oracle for the termination witness: the cost never decreases. -/
def wCostAt : ℕ → ℚ → ℚ := fun _ _ => 1

/-- A mesh as the core consumes it: a dimension and named boundary regions. -/
structure MeshQ where
  dim : ℕ
  boundaries : List String
deriving DecidableEq

/-- The error taxonomy the spec prescribes for space construction. -/
inductive FemError
  | invalidOrder : FemError
  | unknownBoundaryRegion : String → FemError
deriving DecidableEq

/-- Model of `mesh.Boundaries(pattern)`: the boundary regions of the mesh
matched by the pipe-delimited alternation pattern, modelled as the list of
its alternatives.  A name in the pattern matching no mesh boundary simply
contributes nothing. -/
def boundariesOf (m : MeshQ) (pat : List String) : List String :=
  m.boundaries.filter (fun nm => nm ∈ pat)

/-- The data of a constructed function space the claims depend on. -/
structure SpaceQ where
  order : ℕ
  dirichletRegions : List String
deriving DecidableEq

/-- Model of `VectorH1(mesh, order=order, dirichlet=fixedbnd)` as called by
`Beam.define_space`: the library resolves the dirichlet pattern against the
mesh's boundary names by matching and raises nothing for names that match
no boundary, and the repository code wraps it in no validation of its own,
so construction always succeeds.  The `Except` codomain makes the absence
of any error path explicit. -/
def vectorH1 (m : MeshQ) (ord : ℕ) (dirichletPat : List String) :
    Except FemError SpaceQ :=
  Except.ok ⟨ord, boundariesOf m dirichletPat⟩

/-- A 2-D mesh without a 'left' boundary region. -/
def meshNoLeft : MeshQ := ⟨2, ["top", "bottom", "right"]⟩

/-- The immutable configuration of a `Beam` instance: the constructor
arguments plus the `freebnd`/`fixedbnd` region names. -/
structure BeamCfg (Coeff : Type) where
  mesh : MeshQ
  order : ℕ
  lam : ℚ
  mu : ℚ
  bodyForce : Coeff
  traction : Coeff
  freebnd : List String
  fixedbnd : List String

/-- The external NGSolve operations `Beam` composes, as a backend record:
space construction, stiffness assembly (from the space, `mesh.dim`, λ, μ),
load assembly (from the space, `b`, `T`, `freebnd`) and the eliminated
solve (from the space, both forms, and the Dirichlet boundary region the
zero data is imposed on). -/
structure FemBackend (Coeff Space Form Vec : Type) where
  vH1 : MeshQ → ℕ → List String → Space
  assembleStiff : Space → ℕ → ℚ → ℚ → Form
  assembleLoad : Space → Coeff → Coeff → List String → Form
  solveDirichlet : Space → Form → Form → List String → Vec

/-- A `Beam` instance: configuration plus the derived attributes the three
stages assign (`self.V`, `self.a`, `self.f`, `self.gfu`), absent before
their defining stage has run. -/
structure BeamState (Coeff Space Form Vec : Type) where
  cfg : BeamCfg Coeff
  V : Option Space
  aForm : Option Form
  fForm : Option Form
  gfu : Option Vec

/-- Model of `Beam.define_space`:
`self.V = VectorH1(self.mesh, order=self.order, dirichlet=self.fixedbnd)`.
It reads only the configuration and overwrites `V` unconditionally. -/
def define_space {Coeff Space Form Vec : Type} (be : FemBackend Coeff Space Form Vec)
    (s : BeamState Coeff Space Form Vec) : BeamState Coeff Space Form Vec :=
  ⟨s.cfg, some (be.vH1 s.cfg.mesh s.cfg.order s.cfg.fixedbnd), s.aForm, s.fForm, s.gfu⟩

/-- Model of `Beam.define_forms`: assemble the stiffness form
`InnerProduct(sigma(u), epsilon(v))*dx` (whose coefficients are λ, μ and
`mesh.dim`) and the load form `b*v*dx + T*v*ds(definedon=freebnd)` on the
current `self.V`. -/
def define_forms {Coeff Space Form Vec : Type} (be : FemBackend Coeff Space Form Vec)
    (s : BeamState Coeff Space Form Vec) : BeamState Coeff Space Form Vec :=
  ⟨s.cfg, s.V,
    s.V.map (fun sp => be.assembleStiff sp s.cfg.mesh.dim s.cfg.lam s.cfg.mu),
    s.V.map (fun sp => be.assembleLoad sp s.cfg.bodyForce s.cfg.traction s.cfg.freebnd),
    s.gfu⟩

/-- Model of `Beam.solve_system`: the zero Dirichlet data is imposed
`definedon = mesh.Boundaries(self.fixedbnd)` where `mesh` is the
module-global name — hence the boundary set is resolved on `globalMesh`,
not on `self.mesh` — and then the eliminated system is solved for `gfu`. -/
def solve_system {Coeff Space Form Vec : Type} (be : FemBackend Coeff Space Form Vec)
    (globalMesh : MeshQ) (s : BeamState Coeff Space Form Vec) :
    BeamState Coeff Space Form Vec :=
  ⟨s.cfg, s.V, s.aForm, s.fForm,
    match s.V, s.aForm, s.fForm with
    | some sp, some am, some fm =>
        some (be.solveDirichlet sp am fm (boundariesOf globalMesh s.cfg.fixedbnd))
    | _, _, _ => none⟩

/-- Model of `Beam.solve`: run `define_space`, `define_forms`,
`solve_system` in order, recomputing every derived attribute. -/
def beamSolve {Coeff Space Form Vec : Type} (be : FemBackend Coeff Space Form Vec)
    (globalMesh : MeshQ) (s : BeamState Coeff Space Form Vec) :
    BeamState Coeff Space Form Vec :=
  solve_system be globalMesh (define_forms be (define_space be s))

/-- A backend whose eliminated solve records the Dirichlet boundary-region
argument it was given, used to observe which mesh `solve_system` resolves
the fixed boundary on. -/
def recordBE : FemBackend Unit Unit Unit (List String) :=
  ⟨fun _ _ _ => (), fun _ _ _ _ => (), fun _ _ _ _ => (), fun _ _ _ regions => regions⟩

/-- A backend with trivial carriers, for the idempotence witness. -/
def trivialBE : FemBackend Unit Unit Unit Unit :=
  ⟨fun _ _ _ => (), fun _ _ _ _ => (), fun _ _ _ _ => (), fun _ _ _ _ => ()⟩

/-- A concrete beam configuration (2-D defaults of `Beam.__init__`). -/
def wCfg : BeamCfg Unit :=
  ⟨⟨2, ["top", "bottom", "right", "left"]⟩, 2, 1000, 1000, (), (),
    ["top", "bottom", "right"], ["left"]⟩

/-- A fresh beam state (no stage has run). -/
def wState1 : BeamState Unit Unit Unit Unit := ⟨wCfg, none, none, none, none⟩

/-- A beam state carrying stale derived attributes from an earlier solve. -/
def wState2 : BeamState Unit Unit Unit Unit := ⟨wCfg, some (), some (), some (), some ()⟩

/-- A beam configuration whose own mesh has exactly the boundary 'left'. -/
def cfgLeft : BeamCfg Unit := ⟨⟨2, ["left"]⟩, 2, 1, 1, (), (), [], ["left"]⟩

/-- A fresh state for `cfgLeft`, with the region-recording carriers. -/
def stLeft : BeamState Unit Unit Unit (List String) := ⟨cfgLeft, none, none, none, none⟩

/-- A 2-D mesh with no boundary regions at all. -/
def meshEmpty : MeshQ := ⟨2, []⟩

/-- Python float division: a zero denominator raises `ZeroDivisionError`. -/
def pyDiv (a b : ℚ) : Except PyError ℚ :=
  if b = 0 then Except.error PyError.zeroDivision else Except.ok (a / b)

/-- Model of `scale = 0.01 / Norm(gfX.vec)` from the optimization loop:
there is no guard on the denominator.  `normFn` abstracts the external
Euclidean norm `Norm`. -/
def scaleOf (n : ℕ) (normFn : (Fin n → ℚ) → ℚ) (gfX : Fin n → ℚ) :
    Except PyError ℚ :=
  pyDiv (1 / 100) (normFn gfX)

/-- Absolute-value norm on a one-component vector, a concrete norm for the
division-by-zero witness. -/
def wNorm : (Fin 1 → ℚ) → ℚ := fun v => |v 0|

/-- The zero descent direction (vanishing shape derivative). -/
def wGfX : Fin 1 → ℚ := fun _ => 0

/-- Claim C1: Dirichlet elimination round-trip.  For every assembled system
`(A, b)` with free-DOF set `F`, prescribed Dirichlet data `g`, and any
restricted-inverse operator `inv` whose output vanishes outside `F` (the
contract of `a.mat.Inverse(freedofs=F)`), the solution
`u_g + inv (b - A·u_g)` computed by `main` / `Beam.solve_system` carries
exactly the prescribed value at every constrained DOF. -/
theorem claim1_dirichlet_roundtrip (n : ℕ) (A : Fin n → Fin n → ℚ)
    (bv g : Fin n → ℚ) (F : Finset (Fin n)) (inv : (Fin n → ℚ) → Fin n → ℚ)
    (hinv : ∀ r : Fin n → ℚ, ∀ i, i ∉ F → inv r i = 0)
    (i : Fin n) (hi : i ∉ F) :
    solveWithBC n A bv F g inv i = g i := by
  unfold solveWithBC
  rw [hinv _ i hi, add_zero]
  unfold dirichletLift
  rw [if_neg hi]

/-- Free-DOF set for the round-trip witness: only DOF 0 is free. -/
def wF : Finset (Fin 2) := {0}

/-- Identity system matrix for the round-trip witness. -/
def wA : Fin 2 → Fin 2 → ℚ := fun i j => if i = j then 1 else 0

/-- Load vector for the round-trip witness. -/
def wB : Fin 2 → ℚ := fun _ => 3

/-- Prescribed Dirichlet data for the round-trip witness: value 5 at the
constrained DOF 1. -/
def wG : Fin 2 → ℚ := fun i => if i = 0 then 0 else 5

/-- A concrete restricted inverse that vanishes outside the free set. -/
def wInv : (Fin 2 → ℚ) → Fin 2 → ℚ := fun r i => if i ∈ wF then r i else 0

/-- Witness for claim C1 at a concrete 2-DOF system: the constrained DOF 1
ends up holding exactly the prescribed value 5. -/
theorem claim1_dirichlet_roundtrip_witness :
    solveWithBC 2 wA wB wF wG wInv 1 = 5 := by
  have h := claim1_dirichlet_roundtrip 2 wA wB wG wF wInv
    (by intro r i hi; unfold wInv; rw [if_neg hi]) 1 (by decide)
  exact h.trans (by decide)

/-- Claim C2 (code-bug evaluation): at the shear displacement gradient
`∇u = [[0,1],[0,0]]` (so `ε(u) = [[0,1/2],[1/2,0]]` with trace 0), test
gradient `∇v = [[1,0],[0,0]]` and `λ = μ = 1`, the integrand
`InnerProduct(sigma(u), epsilon(v))` assembled by `Beam.define_forms`
evaluates to 1, while the documented stress `σ = λ·tr(ε)·I + 2μ·ε` gives 0:
the code's λ-term sums the first three flat components of `ε` (here 1)
instead of its trace (here 0), so the assembled bilinear form is not the
documented `∫ σ(u):ε(v)`. -/
theorem claim2_sigma_flat_not_trace :
    innerProdQ 2 (sigmaCode 2 1 1 gShear) (epsilonOf 2 gAxial) = 1 ∧
    innerProdQ 2 (sigmaDoc 2 1 1 gShear) (epsilonOf 2 gAxial) = 0 ∧
    traceQ 2 (epsilonOf 2 gShear) = 0 ∧
    flatComp 2 (epsilonOf 2 gShear) 0 + flatComp 2 (epsilonOf 2 gShear) 1 +
        flatComp 2 (epsilonOf 2 gShear) 2 = 1 := by
  refine ⟨?_, ?_, ?_, ?_⟩ <;>
    norm_num [innerProdQ, sigmaCode, sigmaDoc, traceQ, epsilonOf, transposeQ,
      idMat, flatComp, gShear, gAxial, Fin.sum_univ_two, Fin.ext_iff]

/-- Claim C3 (code-bug evaluation): the line-search retry evaluates the
name `CostAuto`, which is bound nowhere in the notebook globals, so the
retry raises `NameError` instead of re-evaluating the objective; the outer
loop's evaluator `CostAuto2` is defined, so the two cost evaluations are
not one consistent evaluator. -/
theorem claim3_linesearch_costauto_undefined :
    evalGlobalName definedCostNames lineSearchCostName =
      Except.error (PyError.nameError lineSearchCostName) ∧
    evalGlobalName definedCostNames outerCostName = Except.ok () := by
  exact ⟨rfl, rfl⟩

/-- Claim C4 counterexample: the single DOF lies on the 'left' boundary
(an anchor point); with zero accumulated deformation, `gfX = (-3,-3)` and
step scale 1, the update followed by the two `Set` lines as executed
(string `definedon` resolved against the volume materials of the
`SplineGeometry` mesh, which contain no 'left' or 'right') leaves the
anchor's deformation at 3 in *both* coordinate components — the anchor
moves in x and in y, refuting "anchor points do not move in any coordinate
component" (and in particular any re-zeroing of the x-component). -/
theorem claim4_anchor_not_rezeroed :
    oneL 0 = true ∧
    stepAndRezeroActual 1 splineMeshMaterials matAll vZero gXneg3 1 0 0 = 3 ∧
    stepAndRezeroActual 1 splineMeshMaterials matAll vZero gXneg3 1 0 1 = 3 ∧
    (3 : ℚ) ≠ 0 := by
  refine ⟨rfl, ?_, ?_, ?_⟩ <;>
    norm_num [stepAndRezeroActual, rezeroAnchorsActual, rezeroAnchors,
      setComponentZero, resolveVolRegion, deformUpdate, splineMeshMaterials,
      matAll, vZero, gXneg3, leftName, rightName] <;>
    decide

/-- Claim C4 amended: the two anchor re-zero calls are silent no-ops.  The
string `definedon` of `gfset.components[0].Set(0, definedon='left')` (and
'right') is resolved with the default `VOL_or_BND = VOL`, i.e. against the
mesh's volume materials; whenever no material is named 'left' or 'right'
(the shape-optimization mesh has only the default material — those names
are boundaries), the resolved regions are empty, the calls touch no DOFs,
and the deformation is left at exactly its updated value `gfset - scale·gfX`:
anchor points are not re-zeroed in any coordinate component. -/
theorem claim4_rezero_is_noop (m : ℕ) (materials : List String)
    (dofsOfMat : String → Fin m → Bool) (v gfX : Fin m → Fin 2 → ℚ)
    (scale : ℚ) (hleft : leftName ∉ materials) (hright : rightName ∉ materials) :
    stepAndRezeroActual m materials dofsOfMat v gfX scale =
      deformUpdate m v gfX scale := by
  funext p j
  unfold stepAndRezeroActual rezeroAnchorsActual rezeroAnchors
    setComponentZero resolveVolRegion
  simp [hleft, hright]

/-- Witness for the amended claim C4: on the actual material list of the
shape-optimization mesh the whole re-zero step equals the bare update. -/
theorem claim4_rezero_is_noop_witness :
    stepAndRezeroActual 1 splineMeshMaterials matAll vZero gXneg3 2 =
      deformUpdate 1 vZero gXneg3 2 :=
  claim4_rezero_is_noop 1 splineMeshMaterials matAll vZero gXneg3 2
    (by decide) (by decide)

/-- Claim C5 (code-bug evaluation): on a non-anchored DOF with iteration
start value 0, `gfX = (-3,-3)` and initial scale 1, the line-search retry
as written (with `gfsetOld` aliasing `gfset`) yields deformation 9/2 —
the already-updated vector 3 minus the halved step — whereas recomputing
from the iteration-start value minus the halved step yields 3/2; the two
disagree, so the retry does not restart from the start-of-iteration value
and `gfset` is mutated mid-iteration. -/
theorem claim5_gfsetold_aliases_gfset :
    retryAliased 1 oneN oneN vZero gXneg3 1 0 1 = 9 / 2 ∧
    retrySnapshot 1 vZero gXneg3 1 0 1 = 3 / 2 ∧ (9 / 2 : ℚ) ≠ 3 / 2 := by
  refine ⟨?_, ?_, ?_⟩ <;>
    norm_num [retryAliased, retrySnapshot, stepAndRezero, rezeroAnchors,
      setComponentZero, deformUpdate, oneN, vZero, gXneg3, Fin.ext_iff]

/-- Helper: one pass of the line search halves `scale`, so fuel `k + 1`
suffices whenever `scale ≤ 2 ^ k` times the minimum step threshold: either
the while-guard fails, or after at most `k + 1` halvings the scale is at or
below `1e-7` and the convergence break fires. -/
theorem lineSearchFuel_isSome (J : ℚ → ℚ) (Jold : ℚ) :
    ∀ (k : ℕ) (scale Jnew : ℚ), scale ≤ 2 ^ k * minStepThreshold →
      (lineSearchFuel J Jold (k + 1) scale Jnew).isSome = true := by
  intro k
  induction k with
  | zero =>
    intro scale Jnew h
    rw [pow_zero, one_mul] at h
    simp only [lineSearchFuel]
    split
    · have h2 : scale / 2 ≤ minStepThreshold := by
        have hpos : (0 : ℚ) ≤ minStepThreshold := by norm_num [minStepThreshold]
        linarith
      rw [if_pos h2]
      rfl
    · rfl
  | succ k ih =>
    intro scale Jnew h
    simp only [lineSearchFuel]
    split
    · by_cases h2 : scale / 2 ≤ minStepThreshold
      · rw [if_pos h2]
        rfl
      · rw [if_neg h2]
        refine ih (scale / 2) (J (scale / 2)) ?_
        have he : (2 : ℚ) ^ (k + 1) * minStepThreshold =
            2 * (2 ^ k * minStepThreshold) := by ring
        rw [he] at h
        linarith
    · rfl

/-- Helper: the fuel computed by `lsFuelOf` dominates the number of
halvings needed: `scale ≤ 2 ^ ⌈scale·10^7⌉₊ · (1/10^7)`. -/
theorem le_pow_ceil (s : ℚ) :
    s ≤ 2 ^ (Int.ceil (s * 10 ^ 7)).toNat * minStepThreshold := by
  have h1 : s * 10 ^ 7 ≤ ((Int.ceil (s * 10 ^ 7)).toNat : ℚ) := by
    have hc := Int.le_ceil (s * 10 ^ 7)
    have h2 : ((Int.ceil (s * 10 ^ 7) : ℤ) : ℚ) ≤
        (((Int.ceil (s * 10 ^ 7)).toNat : ℤ) : ℚ) := by
      exact_mod_cast Int.self_le_toNat _
    push_cast at h2
    linarith
  have h2 : ((Int.ceil (s * 10 ^ 7)).toNat : ℚ) ≤
      2 ^ (Int.ceil (s * 10 ^ 7)).toNat := by
    exact_mod_cast (Nat.lt_two_pow _).le
  unfold minStepThreshold
  rw [mul_one_div, le_div_iff₀ (by norm_num)]
  linarith

/-- Claim C6: the shape-optimization driver always terminates.  (i) The
inner halving loop, run with the fuel `lsFuelOf scale`, always completes
(the scale strictly halves toward its lower bound, so the budget of
halvings computed from the initial scale suffices) for every cost oracle;
(ii) the outer loop `for k in range(iter_max)` enters at most `iter_max`
iterations; (iii) whenever the line search returns with `converged = True`
(scale fell to or below the `1e-7` threshold) the iteration breaks out of
the outer loop immediately. -/
theorem claim6_driver_terminates :
    (∀ (J : ℚ → ℚ) (J0 scale Jnew : ℚ),
        (lineSearchFuel J J0 (lsFuelOf scale) scale Jnew).isSome = true) ∧
    (∀ (sAt : ℕ → ℚ) (cAt : ℕ → ℚ → ℚ) (ls : Bool) (r k : ℕ) (J0 : ℚ),
        driverLoop sAt cAt ls r k J0 ≤ r) ∧
    (∀ (sAt : ℕ → ℚ) (cAt : ℕ → ℚ → ℚ) (r k : ℕ) (J0 s2 J2 : ℚ),
        lineSearchFuel (cAt k) J0 (lsFuelOf (sAt k)) (sAt k) (cAt k (sAt k)) =
          some (s2, J2, true) →
        driverLoop sAt cAt true (r + 1) k J0 = 1) := by
  refine ⟨?_, ?_, ?_⟩
  · intro J J0 scale Jnew
    exact lineSearchFuel_isSome J J0 (Int.ceil (scale * 10 ^ 7)).toNat scale Jnew
      (le_pow_ceil scale)
  · intro sAt cAt ls r
    induction r with
    | zero => intro k J0; simp [driverLoop]
    | succ r ih =>
      intro k J0
      simp only [driverLoop]
      split <;> split
      all_goals
        first
        | omega
        | exact Nat.le_trans (Nat.add_le_add_left (ih _ _) 1) (by omega)
  · intro sAt cAt r k J0 s2 J2 hls
    simp [driverLoop, hls]

/-- Witness for claim C6: with every iteration proposing the threshold
step and a never-decreasing cost, the line search converges on the first
iteration and the driver stops after 1 of its 3 budgeted iterations. -/
theorem claim6_driver_terminates_witness :
    driverLoop wScaleAt wCostAt true 3 0 0 = 1 ∧
    driverLoop wScaleAt wCostAt true 3 0 0 ≤ 3 := by
  constructor
  · refine claim6_driver_terminates.2.2 wScaleAt wCostAt 2 0 0
      (minStepThreshold / 2) 1 ?_
    have e1 : lsFuelOf (wScaleAt 0) = 2 := by
      norm_num [lsFuelOf, wScaleAt, minStepThreshold]
    rw [e1]
    show lineSearchFuel (wCostAt 0) 0 (1 + 1) (wScaleAt 0) (wCostAt 0 (wScaleAt 0)) = _
    simp only [lineSearchFuel]
    have hc : wCostAt 0 (wScaleAt 0) > (0 : ℚ) ∧ wScaleAt 0 > loopGuardThreshold := by
      constructor <;> norm_num [wCostAt, wScaleAt, minStepThreshold, loopGuardThreshold]
    have hle : wScaleAt 0 / 2 ≤ minStepThreshold := by
      norm_num [wScaleAt, minStepThreshold]
    rw [if_pos hc, if_pos hle]
    rfl
  · exact claim6_driver_terminates.2.1 wScaleAt wCostAt true 3 0 0

/-- Claim C7 counterexample: requesting the Dirichlet region 'left' (the
2-D `fixedbnd` of `Beam.__init__`) on a mesh that has no 'left' boundary
does not fail: construction returns a space with an empty constrained set
and no `UnknownBoundaryRegion` is surfaced. -/
theorem claim7_no_failfast :
    leftName ∉ meshNoLeft.boundaries ∧
    vectorH1 meshNoLeft 2 [leftName] = Except.ok ⟨2, []⟩ := by
  constructor
  · decide
  · rfl

/-- Claim C7 amended: function-space construction performs no region-name
validation and never raises `UnknownBoundaryRegion`; a requested Dirichlet
name absent from the mesh is silently ignored — the construction succeeds
and that name contributes nothing to the constrained region set. -/
theorem claim7_unknown_region_ignored (m : MeshQ) (ord : ℕ) (pat : List String)
    (nm : String) (_hnm : nm ∈ pat) (habs : nm ∉ m.boundaries) :
    vectorH1 m ord pat = Except.ok ⟨ord, boundariesOf m pat⟩ ∧
    nm ∉ boundariesOf m pat := by
  refine ⟨rfl, ?_⟩
  intro hmem
  exact habs (List.mem_of_mem_filter hmem)

/-- Witness for the amended claim C7 at the concrete mesh without 'left'. -/
theorem claim7_unknown_region_ignored_witness :
    vectorH1 meshNoLeft 2 [leftName] =
      Except.ok ⟨2, boundariesOf meshNoLeft [leftName]⟩ ∧
    leftName ∉ boundariesOf meshNoLeft [leftName] :=
  claim7_unknown_region_ignored meshNoLeft 2 [leftName] leftName
    (List.mem_singleton.mpr rfl) (by decide)

/-- Claim C8: `Beam.solve()` is idempotent.  For every backend (the
library operations are deterministic functions) and fixed configuration,
the three stages recompute every derived attribute from the configuration
alone — a solve started from any pre-existing derived state produces the
same result (no incremental caching) — and hence a second `solve()`
reproduces the state, in particular the solution field `gfu`, of the
first. -/
theorem claim8_solve_idempotent (Coeff Space Form Vec : Type)
    (be : FemBackend Coeff Space Form Vec) (gm : MeshQ) :
    (∀ s t : BeamState Coeff Space Form Vec, s.cfg = t.cfg →
        beamSolve be gm s = beamSolve be gm t) ∧
    (∀ s : BeamState Coeff Space Form Vec,
        beamSolve be gm (beamSolve be gm s) = beamSolve be gm s) := by
  constructor
  · intro s t h
    simp [beamSolve, solve_system, define_forms, define_space, h]
  · intro s
    rfl

/-- Witness for claim C8: a fresh beam and one carrying stale derived
attributes from an earlier solve yield the same solved state. -/
theorem claim8_solve_idempotent_witness :
    beamSolve trivialBE meshNoLeft wState1 = beamSolve trivialBE meshNoLeft wState2 :=
  (claim8_solve_idempotent Unit Unit Unit Unit trivialBE meshNoLeft).1 wState1 wState2 rfl

/-- Claim C9: `Beam.solve_system` resolves the fixed boundary on the
module-global `mesh`, not on `self.mesh`: (i) the Dirichlet region handed
to the eliminated solve is always `boundariesOf globalMesh fixedbnd`;
(ii) under the precondition that the global mesh is the beam's own mesh
the zero data therefore lands on the beam's fixed boundary; (iii) there is
a global mesh differing from the beam's for which the imposed region is
not the beam's fixed boundary. -/
theorem claim9_solve_system_global_mesh :
    (∀ (gm : MeshQ) (s : BeamState Unit Unit Unit (List String)),
        (beamSolve recordBE gm s).gfu = some (boundariesOf gm s.cfg.fixedbnd)) ∧
    (∀ (gm : MeshQ) (s : BeamState Unit Unit Unit (List String)),
        gm = s.cfg.mesh →
        (beamSolve recordBE gm s).gfu =
          some (boundariesOf s.cfg.mesh s.cfg.fixedbnd)) ∧
    (∃ (gm : MeshQ) (s : BeamState Unit Unit Unit (List String)),
        gm ≠ s.cfg.mesh ∧
        (beamSolve recordBE gm s).gfu ≠
          some (boundariesOf s.cfg.mesh s.cfg.fixedbnd)) := by
  refine ⟨?_, ?_, ?_⟩
  · intro gm s
    rfl
  · intro gm s h
    subst h
    rfl
  · exact ⟨meshEmpty, stLeft, by decide, by decide⟩

/-- Witness for claim C9: with the global mesh equal to the beam's own
mesh, the prescribed region is the beam's fixed boundary. -/
theorem claim9_solve_system_global_mesh_witness :
    (beamSolve recordBE stLeft.cfg.mesh stLeft).gfu =
      some (boundariesOf stLeft.cfg.mesh stLeft.cfg.fixedbnd) :=
  claim9_solve_system_global_mesh.2.1 stLeft.cfg.mesh stLeft rfl

/-- Claim C10: `scale = 0.01 / Norm(gfX.vec)` has no guard, so for any
norm (any function vanishing exactly on the zero vector) a vanishing
descent direction `gfX = 0` makes the scale computation raise
`ZeroDivisionError` instead of terminating cleanly. -/
theorem claim10_scale_divides_by_zero (n : ℕ) (normFn : (Fin n → ℚ) → ℚ)
    (gfX : Fin n → ℚ) (hnorm : normFn gfX = 0 ↔ ∀ i, gfX i = 0)
    (hzero : ∀ i, gfX i = 0) :
    scaleOf n normFn gfX = Except.error PyError.zeroDivision := by
  unfold scaleOf pyDiv
  rw [if_pos (hnorm.mpr hzero)]

/-- Witness for claim C10 at the concrete zero direction with the
absolute-value norm. -/
theorem claim10_scale_divides_by_zero_witness :
    scaleOf 1 wNorm wGfX = Except.error PyError.zeroDivision :=
  claim10_scale_divides_by_zero 1 wNorm wGfX (by simp [wNorm, wGfX])
    (fun _ => rfl)
